import Mathlib

/-!
Verification of the bMCP concurrency/transport layer.

This file gives a shallow embedding of the data structures and operations of
the repository and proves (or refutes) the specified properties about them:

* `src/mcp/transport/result_queue.py` — the `ResultQueue` job/result channel;
* `src/mcp/resources/_internal/executor.py` — the admission-controlled
  pending-operations registry;
* `src/mcp/transport/asgi.py` — the per-session `SSEQueue` and the `/http`
  JSON-RPC endpoint `rpc_endpoint`;
* `src/mcp/handlers.py` — `dispatch_request` and the output-size guard of
  `handle_tools_call`;
* `src/mcp/transport/http_server.py` — the main-thread callback
  `execute_in_main_thread` and `ServerManager.stop`.

Python dicts (which preserve insertion order) are modelled as association
lists `List (String × β)`; `threading.Event` / `asyncio.Event` objects are
modelled as a Bool flag recording whether the event has been set; wall-clock
timestamps, logging and the actual Blender operators are outside the model.
-/

namespace BMCP

/-! ### Insertion-ordered dictionaries (Python `dict` / `OrderedDict`) -/

/-- Python `d.get(k)`: the value stored at the first (only, for a real dict)
occurrence of key `k`, if any. -/
def dictGet {β : Type} (d : List (String × β)) (k : String) : Option β :=
  match d with
  | [] => none
  | (k2, v) :: rest => if k2 = k then some v else dictGet rest k

/-- Python `d[k] = v`: replaces the value in place when the key is present
(keeping its position, as Python dicts do), otherwise appends the new pair at
the end (insertion order). -/
def dictSet {β : Type} (d : List (String × β)) (k : String) (v : β) :
    List (String × β) :=
  match d with
  | [] => [(k, v)]
  | (k2, v2) :: rest =>
      if k2 = k then (k, v) :: rest else (k2, v2) :: dictSet rest k v

/-- Python `del d[k]`: removes the entry with key `k`, if present. -/
def dictDelete {β : Type} (d : List (String × β)) (k : String) :
    List (String × β) :=
  match d with
  | [] => []
  | (k2, v) :: rest => if k2 = k then rest else (k2, v) :: dictDelete rest k

/-! ### src/mcp/transport/result_queue.py -/

/-- The `JobEntry` dataclass: status is one of `"pending"`, `"success"`,
`"error"`, `"cancelled"`; `eventSet` models whether the entry's
`threading.Event` has been set (`created_at` is a wall-clock timestamp and is
not modelled). The payload type `α` stands for the opaque `Any` result. -/
structure JobEntry (α : Type) where
  status : String := "pending"
  result : Option α := none
  error : Option String := none
  eventSet : Bool := false
deriving DecidableEq

/-- The `ResultQueue._queue` dict: job id to entry. -/
abbrev ResultQueue (α : Type) := List (String × JobEntry α)

/-- `ResultQueue.register`: unconditionally stores a fresh pending entry for
`job_id` (the Python dict assignment replaces any existing entry) and hands
its (unset) event back to the caller. -/
def ResultQueue.register {α : Type} (q : ResultQueue α) (jobId : String) :
    ResultQueue α :=
  dictSet q jobId {}

/-- `ResultQueue.get_status`. -/
def ResultQueue.get_status {α : Type} (q : ResultQueue α) (jobId : String) :
    Option String :=
  (dictGet q jobId).map JobEntry.status

/-- `ResultQueue.is_cancelled`: a job absent from the dict is treated as
cancelled; otherwise the stored status is compared with `"cancelled"`. -/
def ResultQueue.is_cancelled {α : Type} (q : ResultQueue α) (jobId : String) :
    Bool :=
  match dictGet q jobId with
  | none => true
  | some e => e.status = "cancelled"

/-- `ResultQueue.set_success`: when the entry exists, overwrites status,
stores the result, sets the event and returns `true`; otherwise `false`. -/
def ResultQueue.set_success {α : Type} (q : ResultQueue α) (jobId : String)
    (result : α) : ResultQueue α × Bool :=
  match dictGet q jobId with
  | none => (q, false)
  | some e =>
      (dictSet q jobId
        { e with status := "success", result := some result, eventSet := true },
       true)

/-- `ResultQueue.set_error`: when the entry exists, overwrites status, stores
the error message, sets the event and returns `true`; otherwise `false`. -/
def ResultQueue.set_error {α : Type} (q : ResultQueue α) (jobId : String)
    (error : String) : ResultQueue α × Bool :=
  match dictGet q jobId with
  | none => (q, false)
  | some e =>
      (dictSet q jobId
        { e with status := "error", error := some error, eventSet := true },
       true)

/-- `ResultQueue.mark_cancelled`: when the entry exists, overwrites the status
with `"cancelled"` (the event is NOT set) and returns `true`. -/
def ResultQueue.mark_cancelled {α : Type} (q : ResultQueue α) (jobId : String) :
    ResultQueue α × Bool :=
  match dictGet q jobId with
  | none => (q, false)
  | some e => (dictSet q jobId { e with status := "cancelled" }, true)

/-- `ResultQueue.get_result`: `(status, result, error)` of a stored job;
`none` models the `KeyError` raised when the job is unknown. -/
def ResultQueue.get_result {α : Type} (q : ResultQueue α) (jobId : String) :
    Option (String × Option α × Option String) :=
  (dictGet q jobId).map (fun e => (e.status, e.result, e.error))

/-- `ResultQueue.cleanup`: removes the job when present. -/
def ResultQueue.cleanup {α : Type} (q : ResultQueue α) (jobId : String) :
    ResultQueue α × Bool :=
  match dictGet q jobId with
  | none => (q, false)
  | some _ => (dictDelete q jobId, true)

/-! ### src/mcp/resources/_internal/executor.py -/

/-- `MAX_PENDING_OPERATIONS` from `src/mcp/utils/config.py`. -/
def MAX_PENDING_OPERATIONS : Nat := 50

/-- One `_pending_operations` entry: the `cancelled` flag, and `signalled`
modelling whether the entry's `asyncio.Event` has been woken through
`loop.call_soon_threadsafe(event.set)` (`start_time` and the loop reference
are wall-clock/runtime objects and are not modelled). -/
structure PendingInfo where
  cancelled : Bool := false
  signalled : Bool := false
deriving DecidableEq

/-- The `_pending_operations` ordered dict. -/
abbrev PendingOps := List (String × PendingInfo)

/-- A freshly registered pending entry (`"cancelled": False`, event unset). -/
def freshPendingInfo : PendingInfo := {}

/-- `_register_pending`, parameterized by the capacity: when the dict already
holds at least `cap` entries, the oldest (first-inserted) entry is marked
cancelled, its event is signalled, and it is removed from the dict; then the
new job is stored. Returns the updated dict and the evicted entry, if any.
(With `cap = MAX_PENDING_OPERATIONS = 50 > 0` the `[]` branch of the match is
unreachable from the initially empty dict; in Python it would raise
`StopIteration`.) -/
def registerPendingCap (cap : Nat) (ops : PendingOps) (jobId : String) :
    PendingOps × Option (String × PendingInfo) :=
  if cap ≤ ops.length then
    match ops with
    | [] => (dictSet ([] : PendingOps) jobId freshPendingInfo, none)
    | (oldestId, oldestInfo) :: rest =>
        (dictSet rest jobId freshPendingInfo,
         some (oldestId, { oldestInfo with cancelled := true, signalled := true }))
  else
    (dictSet ops jobId freshPendingInfo, none)

/-- `_register_pending` at the configured capacity. -/
def registerPending (ops : PendingOps) (jobId : String) :
    PendingOps × Option (String × PendingInfo) :=
  registerPendingCap MAX_PENDING_OPERATIONS ops jobId

/-- `_is_cancelled`: true when the id is absent from the dict (removed after
eviction/cleanup) or the entry is explicitly flagged cancelled. -/
def isCancelledPending (ops : PendingOps) (jobId : String) : Bool :=
  match dictGet ops jobId with
  | none => true
  | some info => info.cancelled

/-- `_unregister_pending`: removes the entry, idempotently. -/
def unregisterPending (ops : PendingOps) (jobId : String) : PendingOps :=
  dictDelete ops jobId

/-- `clear_pending_operations`: empties the dict, returning how many entries
were cleared. -/
def clear_pending_operations (ops : PendingOps) : PendingOps × Nat :=
  ([], ops.length)

/-! ### SSEQueue from src/mcp/transport/asgi.py -/

/-- `collections.deque(maxlen=K).append`: keeps the last `K` elements of the
appended sequence, silently dropping from the left when full. -/
def dequeAppend {α : Type} (maxlen : Nat) (msgs : List α) (m : α) : List α :=
  (msgs ++ [m]).drop (msgs.length + 1 - maxlen)

/-- The `SSEQueue` dataclass; `maxlen` is the capacity of the `messages`
deque, `eventSet` models the `asyncio.Event` used to wake the consumer
(`created_at` / `last_activity` are wall-clock timestamps, not modelled). -/
structure SSEQueue (α : Type) where
  maxlen : Nat
  messages : List α := []
  dropped_count : Nat := 0
  last_drop_notified : Bool := true
  eventSet : Bool := false
deriving DecidableEq

/-- `SSEQueue.append`: when the deque is full the oldest message is dropped,
the drop counter incremented and the pending-notification flag cleared; the
wake event is set in every case. Returns `false` when a drop occurred. -/
def SSEQueue.append {α : Type} (q : SSEQueue α) (m : α) : SSEQueue α × Bool :=
  if q.maxlen ≤ q.messages.length then
    ({ q with
        dropped_count := q.dropped_count + 1,
        last_drop_notified := false,
        messages := dequeAppend q.maxlen q.messages m,
        eventSet := true }, false)
  else
    ({ q with messages := dequeAppend q.maxlen q.messages m, eventSet := true },
     true)

/-- `SSEQueue.popleft`. -/
def SSEQueue.popleft {α : Type} (q : SSEQueue α) : SSEQueue α × Option α :=
  match q.messages with
  | [] => (q, none)
  | m :: rest => ({ q with messages := rest }, some m)

/-- `SSEQueue.get_drop_notification`: when drops are pending, resets the
counter and the flag and returns the coalesced drop count carried by the
synthesized warning event; otherwise returns `none`. -/
def SSEQueue.get_drop_notification {α : Type} (q : SSEQueue α) :
    SSEQueue α × Option Nat :=
  if q.last_drop_notified = false ∧ 0 < q.dropped_count then
    ({ q with last_drop_notified := true, dropped_count := 0 },
     some q.dropped_count)
  else (q, none)

/-- Appending a whole list of messages in order. -/
def SSEQueue.appendAll {α : Type} (q : SSEQueue α) (ms : List α) : SSEQueue α :=
  ms.foldl (fun q m => (SSEQueue.append q m).1) q

/-! ### src/mcp/handlers.py -/

/-- `OUTPUT_SIZE_LIMIT` from `src/mcp/utils/config.py` (2 MiB). -/
def OUTPUT_SIZE_LIMIT : Nat := 2 * 1024 * 1024

/-- Comma-grouping of a reversed digit list, three digits at a time (helper
for Python `f"{n:,}"` formatting). -/
def groupThrees : List Char → List Char
  | a :: b :: c :: d :: rest => a :: b :: c :: ',' :: groupThrees (d :: rest)
  | l => l

/-- Python `f"{n:,}"`: decimal digits grouped in threes with commas. -/
def commaFormat (n : Nat) : String :=
  String.mk (groupThrees (toString n).toList.reverse).reverse

/-- Python `s[:n]` on a string: the first `n` characters. -/
def strTake (s : String) (n : Nat) : String :=
  String.mk (s.data.take n)

/-- The truncation notice appended by `handle_tools_call` when the result
string exceeds `OUTPUT_SIZE_LIMIT`: it names the original size, the limit,
and the truncated amount. -/
def truncationNotice (originalSize : Nat) : String :=
  "\n\n[OUTPUT TRUNCATED]\n" ++
  "Original size: " ++ commaFormat originalSize ++ " bytes\n" ++
  "Limit: " ++ commaFormat OUTPUT_SIZE_LIMIT ++ " bytes\n" ++
  "Truncated: " ++ commaFormat (originalSize - OUTPUT_SIZE_LIMIT) ++ " bytes"

/-- The output-size guard of `handle_tools_call`: over-limit results are cut
to the first `OUTPUT_SIZE_LIMIT` characters and the truncation notice is
appended; results at or below the limit pass through verbatim. -/
def truncateToolOutput (s : String) : String :=
  if OUTPUT_SIZE_LIMIT < s.length then
    strTake s OUTPUT_SIZE_LIMIT ++ truncationNotice s.length
  else s

/-- The keys of the `METHOD_HANDLERS` table. -/
def METHOD_HANDLERS : List String :=
  ["initialize", "tools/list", "tools/call", "resources/list",
   "resources/read", "prompts/list", "prompts/get",
   "notifications/initialized", "notifications/cancelled"]

/-- Outcome of running a protocol handler on given params: a result value, a
raised `ValueError`, or any other raised exception. The handlers themselves
(and the params they consume) are opaque to the dispatch model, so each
theorem quantifies over this outcome. -/
inductive HandlerOutcome (α : Type) where
  | ok (result : α)
  | valueError (msg : String)
  | otherError (msg : String)
deriving DecidableEq

/-- `dispatch_request`: a method absent from `METHOD_HANDLERS` raises
`ValueError("Method '<m>' not supported")`; a known method runs its handler,
whose behaviour is the `handler` parameter of the model. -/
def dispatch_request {α : Type} (method : String) (handler : HandlerOutcome α) :
    HandlerOutcome α :=
  if METHOD_HANDLERS.contains method then handler
  else .valueError ("Method \x27" ++ method ++ "\x27 not supported")

/-! ### rpc_endpoint from src/mcp/transport/asgi.py -/

/-- The JSON-RPC fields `rpc_endpoint` extracts from a successfully parsed
request body (`data.get("method")`, `data.get("id")`, `data.get("jsonrpc")`);
`params` is passed through to the handler and so lives in the handler
oracle. -/
structure RpcData where
  method : Option String := none
  id : Option String := none
  jsonrpc : Option String := none
deriving DecidableEq

/-- A JSON-RPC error object: numeric code and message. -/
structure ErrorObj where
  code : Int
  message : String
deriving DecidableEq

/-- Body of a JSON-RPC response: a result or an error object. -/
inductive RpcBody (α : Type) where
  | result (r : α)
  | error (e : ErrorObj)
deriving DecidableEq

/-- An HTTP response from the endpoint: a JSON-RPC envelope with an HTTP
status code, or an empty-bodied response (`Response(status_code=204)`). -/
inductive HttpResponse (α : Type) where
  | json (status : Nat) (jsonrpcVersion : String) (id : Option String)
      (body : RpcBody α)
  | empty (status : Nat)
deriving DecidableEq

/-- Python truthiness test `if not method:` on the extracted field: absent or
the empty string. -/
def methodMissing : Option String → Bool
  | none => true
  | some s => s = ""

/-- `rpc_endpoint` (the `/http` endpoint), after JSON parsing succeeded:
validates that a method is present, distinguishes notifications (no `id`)
from requests, dispatches, and converts handler exceptions to JSON-RPC error
envelopes (`ValueError` to -32602, anything else to -32603); notifications
always get `204 No Content`. -/
def rpc_endpoint {α : Type} (data : RpcData) (handler : HandlerOutcome α) :
    HttpResponse α :=
  let msgId := data.id
  let ver := data.jsonrpc.getD "2.0"
  if methodMissing data.method then
    .json 200 ver msgId
      (.error ⟨-32600, "Invalid Request: method is required"⟩)
  else
    let method := data.method.getD ""
    let isNotification := msgId.isNone
    match dispatch_request method handler with
    | .ok r =>
        if isNotification then .empty 204
        else .json 200 ver msgId (.result r)
    | .valueError e =>
        if isNotification then .empty 204
        else .json 200 ver msgId (.error ⟨-32602, "Invalid params: " ++ e⟩)
    | .otherError e =>
        if isNotification then .empty 204
        else .json 200 ver msgId (.error ⟨-32603, "Internal error: " ++ e⟩)

/-! ### src/mcp/transport/http_server.py -/

/-- What running the operator and reading its result produces on the main
thread: a success payload, or an error (non-success status from the operator,
unknown tool name, or any raised exception). -/
inductive WorkResult (α : Type) where
  | success (r : α)
  | failure (msg : String)
deriving DecidableEq

/-- `execute_in_main_thread`, the timer callback scheduled by
`ServerManager.execute_on_main_thread`: when the job is already cancelled it
returns immediately without executing the unit of work and without writing a
result; otherwise it executes and writes exactly one terminal outcome
(`set_success` on success, `set_error` on any failure). The Bool records
whether the unit of work was executed. -/
def execute_in_main_thread {α : Type} (q : ResultQueue α) (jobId : String)
    (work : WorkResult α) : ResultQueue α × Bool :=
  if ResultQueue.is_cancelled q jobId then (q, false)
  else
    match work with
    | .success r => ((ResultQueue.set_success q jobId r).1, true)
    | .failure msg => ((ResultQueue.set_error q jobId msg).1, true)

/-- The `ServerManager` state relevant to shutdown: whether the background
server loop exists (`_server_loop is not None`), the `_shutting_down` flag,
the `_shutdown_complete` event, whether uvicorn was told to exit, whether the
MCP instance is live, and the executor's pending-operations dict that the
shutdown sequence clears. -/
structure ServerState where
  serverLoopPresent : Bool := false
  shuttingDown : Bool := false
  shutdownComplete : Bool := true
  uvicornShouldExit : Bool := false
  mcpInstancePresent : Bool := false
  pendingOps : PendingOps := []
deriving DecidableEq

/-- `ServerManager.stop` (synchronous part): when the server loop is present,
marks shutting-down, clears the loop/thread/task references, spawns the
graceful-shutdown thread and returns `true`; otherwise returns `false`
without doing anything. -/
def ServerManager.stop (s : ServerState) : Bool × ServerState :=
  if s.serverLoopPresent then
    (true,
     { s with
        shuttingDown := true,
        shutdownComplete := false,
        serverLoopPresent := false })
  else (false, s)

/-- The `graceful_shutdown` closure run to completion on the shutdown thread:
signals uvicorn to exit, then in its `finally` block clears the pending
operations, resets the MCP instance, sets the shutdown-complete event and
finally clears the shutting-down flag. -/
def gracefulShutdown (s : ServerState) : ServerState :=
  { s with
      uvicornShouldExit := true,
      pendingOps := (clear_pending_operations s.pendingOps).1,
      mcpInstancePresent := false,
      shutdownComplete := true,
      shuttingDown := false }

/-! ### Dictionary lemmas -/

theorem dictGet_dictSet_self {β : Type} (d : List (String × β)) (k : String)
    (v : β) : dictGet (dictSet d k v) k = some v := by
  induction d with
  | nil => simp [dictSet, dictGet]
  | cons p rest ih =>
      obtain ⟨k2, v2⟩ := p
      by_cases h : k2 = k <;> simp [dictSet, dictGet, h, ih]

theorem dictSet_length_le {β : Type} (d : List (String × β)) (k : String)
    (v : β) : (dictSet d k v).length ≤ d.length + 1 := by
  induction d with
  | nil => simp [dictSet]
  | cons p rest ih =>
      obtain ⟨k2, v2⟩ := p
      by_cases h : k2 = k
      · simp [dictSet, h]
      · simp only [dictSet, if_neg h, List.length_cons]
        omega

theorem dictSet_append_of_not_mem {β : Type} (d : List (String × β))
    (k : String) (v : β) (h : ∀ p ∈ d, p.1 ≠ k) :
    dictSet d k v = d ++ [(k, v)] := by
  induction d with
  | nil => simp [dictSet]
  | cons p rest ih =>
      obtain ⟨k2, v2⟩ := p
      have hk2 : k2 ≠ k := h (k2, v2) (List.mem_cons_self _ _)
      simp only [dictSet, if_neg hk2, List.cons_append, List.cons.injEq, true_and]
      exact ih (fun p hp => h p (List.mem_cons_of_mem _ hp))

/-! ### Claim C1 -/

/-- Claim C1 counterexample: `set_success` arriving after `mark_cancelled`
for the same registered job id is NOT a no-op — it flips the stored status
from `"cancelled"` to `"success"`, refuting the first-writer-wins claim at a
concrete input. -/
theorem C1_counterexample :
    ResultQueue.get_status
      ((ResultQueue.mark_cancelled
        (ResultQueue.register ([] : ResultQueue String) "job") "job").1) "job"
      = some "cancelled" ∧
    ResultQueue.get_status
      ((ResultQueue.set_success
        ((ResultQueue.mark_cancelled
          (ResultQueue.register ([] : ResultQueue String) "job") "job").1)
        "job" "late result").1) "job"
      = some "success" := by
  exact ⟨rfl, rfl⟩

/-- Claim C1 (amended): the ResultQueue terminal writers are last-writer-wins,
not first-writer-wins: whenever the entry exists, `set_success` overwrites
the stored status and result unconditionally, regardless of any previously
written terminal status; in particular a `set_success` arriving after
`mark_cancelled` changes the status to `"success"` and stores the late
result. -/
theorem C1_last_writer_wins {α : Type} (q : ResultQueue α) (jobId : String)
    (r : α) (h : (dictGet q jobId).isSome) :
    ResultQueue.get_status
      ((ResultQueue.set_success
        ((ResultQueue.mark_cancelled q jobId).1) jobId r).1) jobId
      = some "success" ∧
    (dictGet
      ((ResultQueue.set_success
        ((ResultQueue.mark_cancelled q jobId).1) jobId r).1) jobId).map
      JobEntry.result = some (some r) := by
  obtain ⟨e, he⟩ := Option.isSome_iff_exists.mp h
  simp [ResultQueue.mark_cancelled, he, ResultQueue.set_success,
    dictGet_dictSet_self, ResultQueue.get_status]

/-- Claim C1 witness: the amended theorem applied at a concrete queue holding
one registered job. -/
theorem C1_witness :
    (dictGet (ResultQueue.register ([] : ResultQueue String) "job")
      "job").isSome ∧
    (ResultQueue.get_status
      ((ResultQueue.set_success
        ((ResultQueue.mark_cancelled
          (ResultQueue.register ([] : ResultQueue String) "job") "job").1)
        "job" "r").1) "job" = some "success" ∧
    (dictGet
      ((ResultQueue.set_success
        ((ResultQueue.mark_cancelled
          (ResultQueue.register ([] : ResultQueue String) "job") "job").1)
        "job" "r").1) "job").map JobEntry.result = some (some "r")) :=
  ⟨by decide,
   C1_last_writer_wins (ResultQueue.register [] "job") "job" "r" (by decide)⟩

/-! ### Claim C2 -/

theorem registerPendingCap_length_le (cap : Nat) (hcap : 0 < cap)
    (ops : PendingOps) (jobId : String) (h : ops.length ≤ cap) :
    ((registerPendingCap cap ops jobId).1).length ≤ cap := by
  unfold registerPendingCap
  by_cases hc : cap ≤ ops.length
  · cases ops with
    | nil => simp only [List.length_nil] at hc; omega
    | cons p rest =>
        obtain ⟨oldestId, oldestInfo⟩ := p
        rw [if_pos hc]
        have hd := dictSet_length_le rest jobId freshPendingInfo
        simp only [List.length_cons] at h
        simpa using le_trans hd (by omega)
  · rw [if_neg hc]
    have hd := dictSet_length_le ops jobId freshPendingInfo
    simp only [not_le] at hc
    simpa using le_trans hd (by omega)

theorem registerPending_foldl_le (jobs : List String) (ops : PendingOps)
    (h : ops.length ≤ MAX_PENDING_OPERATIONS) :
    (jobs.foldl (fun s j => (registerPending s j).1) ops).length
      ≤ MAX_PENDING_OPERATIONS := by
  induction jobs generalizing ops with
  | nil => simpa using h
  | cons j rest ih =>
      simp only [List.foldl_cons]
      exact ih _
        (registerPendingCap_length_le MAX_PENDING_OPERATIONS (by decide) ops j h)

/-- Claim C2: (1) over every sequence of `_register_pending` calls starting
from the empty registry, the pending-operations dict never exceeds
`MAX_PENDING_OPERATIONS` entries; (2) when a registration with a fresh job id
arrives while the dict holds exactly `MAX_PENDING_OPERATIONS` entries, the
single oldest (first-inserted) entry is returned marked cancelled with its
event signalled and is removed, the new entry is appended, and the dict again
has exactly `MAX_PENDING_OPERATIONS` entries. -/
theorem C2_admission_control :
    (∀ jobs : List String,
      (jobs.foldl (fun ops j => (registerPending ops j).1)
        ([] : PendingOps)).length ≤ MAX_PENDING_OPERATIONS) ∧
    (∀ (oldestId : String) (oldestInfo : PendingInfo) (rest : PendingOps)
        (jobId : String),
      ((oldestId, oldestInfo) :: rest).length = MAX_PENDING_OPERATIONS →
      (∀ p ∈ rest, p.1 ≠ jobId) →
      registerPending ((oldestId, oldestInfo) :: rest) jobId =
        (rest ++ [(jobId, freshPendingInfo)],
         some (oldestId,
           { oldestInfo with cancelled := true, signalled := true })) ∧
      (rest ++ [(jobId, freshPendingInfo)]).length
        = MAX_PENDING_OPERATIONS) := by
  constructor
  · intro jobs
    exact registerPending_foldl_le jobs [] (by decide)
  · intro oldestId oldestInfo rest jobId hlen hfresh
    have hc : MAX_PENDING_OPERATIONS
        ≤ ((oldestId, oldestInfo) :: rest).length := le_of_eq hlen.symm
    constructor
    · unfold registerPending registerPendingCap
      rw [if_pos hc]
      show (dictSet rest jobId freshPendingInfo,
        some (oldestId,
          { oldestInfo with cancelled := true, signalled := true })) = _
      rw [dictSet_append_of_not_mem rest jobId freshPendingInfo hfresh]
    · simp only [List.length_append, List.length_cons, List.length_nil] at hlen ⊢
      omega

/-- A concrete 49-entry tail for the Claim C2 witness, with pairwise distinct
keys all different from the witness's new job id. -/
def C2WitnessRest : PendingOps :=
  (List.range 49).map (fun i => ("q" ++ toString i, freshPendingInfo))

/-- Claim C2 witness: the eviction branch of the theorem applied to a
concrete full registry of 50 entries and a fresh 51st job id. -/
theorem C2_witness :
    (("p0", freshPendingInfo) :: C2WitnessRest).length
      = MAX_PENDING_OPERATIONS ∧
    (∀ p ∈ C2WitnessRest, p.1 ≠ "newjob") ∧
    (registerPending (("p0", freshPendingInfo) :: C2WitnessRest) "newjob" =
      (C2WitnessRest ++ [("newjob", freshPendingInfo)],
       some ("p0", { cancelled := true, signalled := true })) ∧
     (C2WitnessRest ++ [("newjob", freshPendingInfo)]).length
       = MAX_PENDING_OPERATIONS) :=
  ⟨by decide, by decide,
   C2_admission_control.2 "p0" freshPendingInfo C2WitnessRest "newjob"
     (by decide) (by decide)⟩

/-! ### Claim C3 -/

/-- Claim C3: when the ResultQueue reports the job cancelled (the id is
absent, or the stored status is `"cancelled"`) at the moment the main-thread
callback runs, the callback returns without executing the unit of work and
without writing any terminal result — the queue state is unchanged, whatever
the unit of work would have produced. -/
theorem C3_skip_cancelled {α : Type} (q : ResultQueue α) (jobId : String)
    (work : WorkResult α) (h : ResultQueue.is_cancelled q jobId = true) :
    execute_in_main_thread q jobId work = (q, false) := by
  simp [execute_in_main_thread, h]

/-- Claim C3 witness: a queue whose entry is explicitly marked cancelled; the
callback leaves the queue untouched and does not run the work. -/
theorem C3_witness :
    ResultQueue.is_cancelled
      [("job", ({ status := "cancelled" } : JobEntry String))] "job" = true ∧
    execute_in_main_thread
      [("job", ({ status := "cancelled" } : JobEntry String))] "job"
      (WorkResult.success "r")
      = ([("job", ({ status := "cancelled" } : JobEntry String))], false) :=
  ⟨by decide, C3_skip_cancelled _ "job" (WorkResult.success "r") (by decide)⟩

/-! ### Claim C4 -/

theorem dequeAppend_drop_full {α : Type} (K : Nat) (ms : List α) (m : α)
    (hK : K ≤ ms.length) :
    dequeAppend K (ms.drop (ms.length - K)) m
      = (ms ++ [m]).drop (ms.length + 1 - K) := by
  unfold dequeAppend
  rw [List.length_drop]
  have h1 : ms.length - (ms.length - K) + 1 - K = 1 := by omega
  rw [h1, List.drop_append_eq_append_drop, List.drop_append_eq_append_drop,
    List.drop_drop, List.length_drop]
  have e1 : ms.length - K + 1 = ms.length + 1 - K := by omega
  have e2 : 1 - (ms.length - (ms.length - K)) = ms.length + 1 - K - ms.length := by
    omega
  rw [e1, e2]

/-- State of a fresh `SSEQueue` of capacity `K` after appending the messages
`ms` in order: the buffer holds the last `K` messages, the drop counter holds
the overflow, the pending-notification flag is clear exactly when a drop has
happened, and the wake event has been set when anything was appended. -/
theorem sse_appendAll_fresh_spec {α : Type} (K : Nat) (ms : List α) :
    SSEQueue.appendAll ({ maxlen := K } : SSEQueue α) ms =
      { maxlen := K,
        messages := ms.drop (ms.length - K),
        dropped_count := ms.length - K,
        last_drop_notified := decide (ms.length ≤ K),
        eventSet := !ms.isEmpty } := by
  induction ms using List.reverseRecOn with
  | nil =>
      simp [SSEQueue.appendAll, Nat.zero_sub, Nat.zero_le]
  | append_singleton ms m ih =>
      have step : SSEQueue.appendAll ({ maxlen := K } : SSEQueue α) (ms ++ [m])
          = (SSEQueue.append
              (SSEQueue.appendAll ({ maxlen := K } : SSEQueue α) ms) m).1 := by
        simp [SSEQueue.appendAll, List.foldl_append]
      rw [step, ih]
      have hlen1 : (ms ++ [m]).length = ms.length + 1 := by simp
      have hev : (ms ++ [m]).isEmpty = false := by simp
      by_cases hK : K ≤ ms.length
      · have hcond : K ≤ (ms.drop (ms.length - K)).length := by
          rw [List.length_drop]; omega
        have hmsg := dequeAppend_drop_full K ms m hK
        have hdc : ms.length - K + 1 = ms.length + 1 - K := by omega
        have hnt : decide (ms.length + 1 ≤ K) = false := by
          simp only [decide_eq_false_iff_not]; omega
        have hcond2 : K ≤ ms.length - (ms.length - K) := by omega
        simp [SSEQueue.append, hcond, hcond2, hlen1, hev, hmsg, hdc, hnt]
      · have h0 : ms.length - K = 0 := by omega
        have h1 : ms.length + 1 - K = 0 := by omega
        have hcond : ¬ K ≤ (ms.drop (ms.length - K)).length := by
          rw [List.length_drop]; omega
        have hnt1 : decide (ms.length + 1 ≤ K) = true := by
          simp only [decide_eq_true_eq]; omega
        have hnt0 : decide (ms.length ≤ K) = true := by
          simp only [decide_eq_true_eq]; omega
        have hmsg : dequeAppend K ms m = ms ++ [m] := by
          unfold dequeAppend
          rw [h1, List.drop_zero]
        simp [SSEQueue.append, hcond, hK, hlen1, hev, hmsg, hnt0, hnt1, h0, h1,
          List.drop_zero]

/-- Claim C4: appending `N > K` messages to a fresh capacity-`K` `SSEQueue`
leaves the buffer holding exactly the `K` most recent messages in append
order with a cumulative drop count of `N - K`; the next
`get_drop_notification` surfaces exactly that count once and resets it, a
further call returns none, and the count only becomes available again after
another drop occurs. -/
theorem C4_bounded_queue_drop_semantics {α : Type} (K : Nat) (ms : List α)
    (h : K < ms.length) :
    (SSEQueue.appendAll ({ maxlen := K } : SSEQueue α) ms).messages
        = ms.drop (ms.length - K) ∧
    (SSEQueue.appendAll ({ maxlen := K } : SSEQueue α) ms).dropped_count
        = ms.length - K ∧
    (SSEQueue.get_drop_notification
        (SSEQueue.appendAll ({ maxlen := K } : SSEQueue α) ms)).2
        = some (ms.length - K) ∧
    (SSEQueue.get_drop_notification
      (SSEQueue.get_drop_notification
        (SSEQueue.appendAll ({ maxlen := K } : SSEQueue α) ms)).1).2
        = none ∧
    (∀ m : α,
      (SSEQueue.get_drop_notification
        (SSEQueue.append
          (SSEQueue.get_drop_notification
            (SSEQueue.appendAll ({ maxlen := K } : SSEQueue α) ms)).1 m).1).2
        = some 1) := by
  rw [sse_appendAll_fresh_spec]
  have hnot : ¬ (ms.length ≤ K) := by omega
  have hdrop : 0 < ms.length - K := by omega
  have hcond : (decide (ms.length ≤ K) = false ∧ 0 < ms.length - K) := by
    simp [hnot, hdrop]
  refine ⟨rfl, rfl, ?_, ?_, ?_⟩
  · simp only [SSEQueue.get_drop_notification, if_pos hcond]
  · simp only [SSEQueue.get_drop_notification, if_pos hcond]
    simp [SSEQueue.get_drop_notification]
  · intro m
    simp only [SSEQueue.get_drop_notification, if_pos hcond]
    have hfull : K ≤ (ms.drop (ms.length - K)).length := by
      rw [List.length_drop]; omega
    simp only [SSEQueue.append, if_pos hfull]
    simp [SSEQueue.get_drop_notification]

/-- Claim C4 witness: capacity 2, five messages appended; the buffer keeps
the last two in order, three drops are coalesced into one notification, and
the notification re-arms only after a further drop. -/
theorem C4_witness :
    (2 < ([10, 20, 30, 40, 50] : List Nat).length) ∧
    ((SSEQueue.appendAll ({ maxlen := 2 } : SSEQueue Nat)
        [10, 20, 30, 40, 50]).messages
        = [10, 20, 30, 40, 50].drop ([10, 20, 30, 40, 50].length - 2) ∧
     (SSEQueue.appendAll ({ maxlen := 2 } : SSEQueue Nat)
        [10, 20, 30, 40, 50]).dropped_count
        = [10, 20, 30, 40, 50].length - 2 ∧
     (SSEQueue.get_drop_notification
        (SSEQueue.appendAll ({ maxlen := 2 } : SSEQueue Nat)
          [10, 20, 30, 40, 50])).2
        = some ([10, 20, 30, 40, 50].length - 2) ∧
     (SSEQueue.get_drop_notification
        (SSEQueue.get_drop_notification
          (SSEQueue.appendAll ({ maxlen := 2 } : SSEQueue Nat)
            [10, 20, 30, 40, 50])).1).2
        = none ∧
     (∀ m : Nat,
       (SSEQueue.get_drop_notification
         (SSEQueue.append
           (SSEQueue.get_drop_notification
             (SSEQueue.appendAll ({ maxlen := 2 } : SSEQueue Nat)
               [10, 20, 30, 40, 50])).1 m).1).2
         = some 1)) :=
  ⟨by decide,
   C4_bounded_queue_drop_semantics 2 [10, 20, 30, 40, 50] (by decide)⟩

/-! ### Claim C5 -/

/-- Claim C5 counterexample: a second `register` for a job id whose first
registration is still live (here: already completed with `"success"`, entry
still stored) is not an error — it silently replaces the existing entry and
its event with a fresh pending entry. -/
theorem C5_counterexample :
    ResultQueue.get_status
      ((ResultQueue.set_success
        (ResultQueue.register ([] : ResultQueue String) "job") "job" "r").1)
      "job" = some "success" ∧
    ResultQueue.register
      ((ResultQueue.set_success
        (ResultQueue.register ([] : ResultQueue String) "job") "job" "r").1)
      "job" = [("job", ({} : JobEntry String))] ∧
    ResultQueue.get_status
      (ResultQueue.register
        ((ResultQueue.set_success
          (ResultQueue.register ([] : ResultQueue String) "job") "job" "r").1)
        "job") "job" = some "pending" := by
  decide

/-- Claim C5 (amended): `register` never fails: for every queue state —
including one already holding a live entry for the same id — it rebinds the
id to a fresh pending entry with an unset event, silently replacing whatever
was there. -/
theorem C5_register_replaces {α : Type} (q : ResultQueue α) (jobId : String) :
    dictGet (ResultQueue.register q jobId) jobId = some ({} : JobEntry α) := by
  simp [ResultQueue.register, dictGet_dictSet_self]

/-! ### Claim C7 -/

/-- Claim C7: in both registries, `is_cancelled` returns true exactly when the
id is absent or the entry is explicitly marked cancelled, so an
evicted-and-removed job and an explicitly cancelled one are indistinguishable
to the caller. First conjunct: `ResultQueue.is_cancelled`; second conjunct:
the executor's `_is_cancelled` on the pending-operations dict. -/
theorem C7_is_cancelled_semantics :
    (∀ (α : Type) (q : ResultQueue α) (jobId : String),
      ResultQueue.is_cancelled q jobId = true ↔
        dictGet q jobId = none ∨
        ∃ e, dictGet q jobId = some e ∧ e.status = "cancelled") ∧
    (∀ (ops : PendingOps) (jobId : String),
      isCancelledPending ops jobId = true ↔
        dictGet ops jobId = none ∨
        ∃ i, dictGet ops jobId = some i ∧ i.cancelled = true) := by
  constructor
  · intro α q jobId
    unfold ResultQueue.is_cancelled
    cases h : dictGet q jobId <;> simp [h]
  · intro ops jobId
    unfold isCancelledPending
    cases h : dictGet ops jobId <;> simp [h]

/-! ### Claim C6 -/

/-- Claim C6 counterexample: a request for a method absent from the handler
table receives a structured envelope with error code -32602 (labelled
"Invalid params"), not -32601 (method not found), at this concrete input. -/
theorem C6_counterexample :
    rpc_endpoint
      ({ method := some "not/a/method", id := some "1" } : RpcData)
      (HandlerOutcome.ok "unused")
      = HttpResponse.json 200 "2.0" (some "1")
          (RpcBody.error
            ⟨-32602,
             "Invalid params: Method \x27not/a/method\x27 not supported"⟩) ∧
    (-32602 : Int) ≠ -32601 := by
  exact ⟨rfl, by decide⟩

/-- Claim C6 (amended): for every request whose method is absent from the
handler table (and non-empty), `dispatch_request` fails with the ValueError
"Method not supported", and the `/http` transport returns a structured
JSON-RPC error envelope — not an unhandled exception — but with code -32602
and an invalid-params message wrapping the dispatch error, because the single
`except ValueError` branch maps method-not-found and invalid-params failures
to the same code. -/
theorem C6_unknown_method_dispatch {α : Type} (m : String) (msgId : String)
    (ver : Option String) (handler : HandlerOutcome α)
    (hmem : METHOD_HANDLERS.contains m = false) (hne : m ≠ "") :
    dispatch_request m handler
      = HandlerOutcome.valueError ("Method \x27" ++ m ++ "\x27 not supported") ∧
    rpc_endpoint ({ method := some m, id := some msgId, jsonrpc := ver } : RpcData)
      handler
      = HttpResponse.json 200 (ver.getD "2.0") (some msgId)
          (RpcBody.error
            ⟨-32602,
             "Invalid params: "
               ++ ("Method \x27" ++ m ++ "\x27 not supported")⟩) := by
  have hdispatch : dispatch_request m handler
      = HandlerOutcome.valueError ("Method \x27" ++ m ++ "\x27 not supported") := by
    unfold dispatch_request
    rw [hmem]
    rfl
  refine ⟨hdispatch, ?_⟩
  have hmm : methodMissing (some m) = false := by
    simp [methodMissing, hne]
  unfold rpc_endpoint
  simp [hmm, hdispatch]

/-- Claim C6 witness: the amended theorem applied to a concrete unknown
method name with an id. -/
theorem C6_witness :
    METHOD_HANDLERS.contains "tools/unknown" = false ∧
    ("tools/unknown" : String) ≠ "" ∧
    (dispatch_request "tools/unknown" (HandlerOutcome.ok "x")
      = HandlerOutcome.valueError
          ("Method \x27" ++ "tools/unknown" ++ "\x27 not supported") ∧
     rpc_endpoint
       ({ method := some "tools/unknown", id := some "7", jsonrpc := none } :
         RpcData) (HandlerOutcome.ok "x")
       = HttpResponse.json 200 ((none : Option String).getD "2.0") (some "7")
           (RpcBody.error
             ⟨-32602,
              "Invalid params: "
                ++ ("Method \x27" ++ "tools/unknown"
                  ++ "\x27 not supported")⟩)) :=
  ⟨by decide, by decide,
   C6_unknown_method_dispatch "tools/unknown" "7" none (HandlerOutcome.ok "x")
     (by decide) (by decide)⟩

/-! ### Claim C8 -/

/-- Claim C8 counterexample: an inbound message with no id field but also no
method (here: the empty parsed body) does NOT get 204 No Content — the /http
endpoint replies with a -32600 Invalid Request error envelope, so an error
envelope can be sent for an id-less message. -/
theorem C8_counterexample :
    rpc_endpoint ({} : RpcData) (HandlerOutcome.ok "unused")
      = HttpResponse.json 200 "2.0" none
          (RpcBody.error ⟨-32600, "Invalid Request: method is required"⟩) ∧
    rpc_endpoint ({} : RpcData) (HandlerOutcome.ok "unused")
      ≠ HttpResponse.empty 204 := by
  exact ⟨rfl, by decide⟩

/-- Claim C8 (amended): for every inbound message on `/http` that carries a
present, non-empty method and no id field (a notification), the endpoint
responds 204 No Content with no body, regardless of what the handler returns
and also when it raises ValueError or any other exception; the id-less
messages that instead receive a -32600 envelope are exactly those with a
missing or empty method, which fail request validation before the
notification check. -/
theorem C8_notification_no_content {α : Type} (data : RpcData)
    (handler : HandlerOutcome α) (hid : data.id = none)
    (hm : methodMissing data.method = false) :
    rpc_endpoint data handler = HttpResponse.empty 204 := by
  unfold rpc_endpoint
  rw [hm]
  simp only [Bool.false_eq_true, if_false, hid, Option.isNone_none]
  cases dispatch_request (data.method.getD "") handler <;> simp

/-- Claim C8 witness: a notifications/initialized notification whose handler
raises an arbitrary exception still yields 204. -/
theorem C8_witness :
    ({ method := some "notifications/initialized" } : RpcData).id = none ∧
    methodMissing
      ({ method := some "notifications/initialized" } : RpcData).method
      = false ∧
    rpc_endpoint ({ method := some "notifications/initialized" } : RpcData)
      (HandlerOutcome.otherError ("boom" : String))
      = HttpResponse.empty (α := String) 204 :=
  ⟨by decide, by decide,
   C8_notification_no_content
     ({ method := some "notifications/initialized" } : RpcData)
     (HandlerOutcome.otherError "boom") (by decide) (by decide)⟩

/-! ### Claim C9 -/

/-- Claim C9: `stop` returns true exactly when the server loop is present
(the server is running) and a shutdown is started; calling it again after a
stop is a no-op returning false without error, whether or not the first call
initiated a shutdown; and running the shutdown sequence to completion leaves
the pending-operations set empty with the shutdown-complete event set. -/
theorem C9_stop_idempotent_and_clears :
    (∀ s : ServerState, (ServerManager.stop s).1 = s.serverLoopPresent) ∧
    (∀ s : ServerState,
      (ServerManager.stop (ServerManager.stop s).2).1 = false ∧
      (ServerManager.stop (ServerManager.stop s).2).2
        = (ServerManager.stop s).2) ∧
    (∀ s : ServerState,
      (gracefulShutdown (ServerManager.stop s).2).pendingOps = [] ∧
      (gracefulShutdown (ServerManager.stop s).2).shutdownComplete = true ∧
      (gracefulShutdown (ServerManager.stop s).2).shuttingDown = false) := by
  refine ⟨?_, ?_, ?_⟩ <;>
    intro s <;>
    by_cases h : s.serverLoopPresent <;>
    simp [ServerManager.stop, gracefulShutdown, clear_pending_operations, h]

/-! ### Claim C10 -/

/-- Claim C10: a tool result whose string form is at most OUTPUT_SIZE_LIMIT
characters is returned verbatim; one that exceeds the limit is returned as
exactly its first OUTPUT_SIZE_LIMIT characters followed by the truncation
notice naming the original size, the limit, and the truncated amount, so the
over-limit response length is exactly the limit plus the notice length. -/
theorem C10_output_truncation (s : String) :
    (s.length ≤ OUTPUT_SIZE_LIMIT → truncateToolOutput s = s) ∧
    (OUTPUT_SIZE_LIMIT < s.length →
      truncateToolOutput s
        = strTake s OUTPUT_SIZE_LIMIT ++ truncationNotice s.length ∧
      (truncateToolOutput s).length
        = OUTPUT_SIZE_LIMIT + (truncationNotice s.length).length) := by
  constructor
  · intro h
    have hn : ¬ OUTPUT_SIZE_LIMIT < s.length := by omega
    simp [truncateToolOutput, hn]
  · intro h
    have heq : truncateToolOutput s
        = strTake s OUTPUT_SIZE_LIMIT ++ truncationNotice s.length := by
      simp [truncateToolOutput, h]
    refine ⟨heq, ?_⟩
    rw [heq]
    have hdata : s.length = s.data.length := rfl
    have hlen : (strTake s OUTPUT_SIZE_LIMIT).length = OUTPUT_SIZE_LIMIT := by
      show (s.data.take OUTPUT_SIZE_LIMIT).length = OUTPUT_SIZE_LIMIT
      rw [List.length_take]
      omega
    rw [String.length_append, hlen]

/-- Claim C10 witness: a short string passes through verbatim, and a concrete
string one character over the 2 MiB limit is cut at the limit with the notice
appended. -/
theorem C10_witness :
    (("ok" : String).length ≤ OUTPUT_SIZE_LIMIT ∧
      truncateToolOutput "ok" = "ok") ∧
    (OUTPUT_SIZE_LIMIT
        < (String.mk (List.replicate (OUTPUT_SIZE_LIMIT + 1) 'a')).length ∧
      truncateToolOutput (String.mk (List.replicate (OUTPUT_SIZE_LIMIT + 1) 'a'))
        = strTake (String.mk (List.replicate (OUTPUT_SIZE_LIMIT + 1) 'a'))
            OUTPUT_SIZE_LIMIT ++
          truncationNotice
            (String.mk (List.replicate (OUTPUT_SIZE_LIMIT + 1) 'a')).length) :=
  ⟨⟨by decide, (C10_output_truncation "ok").1 (by decide)⟩,
   ⟨by
      show OUTPUT_SIZE_LIMIT < (List.replicate (OUTPUT_SIZE_LIMIT + 1) 'a').length
      rw [List.length_replicate]
      omega,
    ((C10_output_truncation
        (String.mk (List.replicate (OUTPUT_SIZE_LIMIT + 1) 'a'))).2
      (by
        show OUTPUT_SIZE_LIMIT
          < (List.replicate (OUTPUT_SIZE_LIMIT + 1) 'a').length
        rw [List.length_replicate]
        omega)).1⟩⟩

end BMCP
